import Mathlib

/-!
Verification development for the resumegpt conversation layer
(`backend/services/conversation_service.py` and
`backend/services/deepseek_service.py`).

The Python service is a thin layer over LangChain: the service object owns a
LangChain memory object (`ConversationBufferMemory`,
`ConversationBufferWindowMemory` or `ConversationSummaryBufferMemory`) and a
`ConversationalRetrievalChain`.  The service methods
(`ask_question`, `get_chat_history_formatted`, `clear_memory`,
`get_memory_summary`, `switch_memory_type`, `_create_memory`) are embedded
here directly from the source.  The parts executed inside the LangChain
library (prompt assembly, memory load/save) are not part of this repository;
they are modelled from the specification (its section 4.2 step list and the
section 6 template), as marked on each such definition.

External collaborators are passed in as parameters: the retriever's result is
the list `docs` of fragment texts, and the generation back end (the OpenAI
client used by `DeepSeekLLM._call`) is a function from a prompt to
`Except String String` (`Except.error e` models the client raising an
exception with message `e`).
-/

set_option autoImplicit false

namespace ResumeGPT

/-- Role of a chat message in the LangChain chat history
(`HumanMessage`, `AIMessage`, `SystemMessage`). -/
inductive Role where
  | human
  | ai
  | system
  deriving DecidableEq, Repr

/-- One stored chat message: a role together with its `content` string. -/
structure Message where
  role : Role
  content : String
  deriving DecidableEq, Repr

/-- Which LangChain memory class `ConversationService._create_memory` built:
`buffer` is `ConversationBufferMemory`, `window k` is
`ConversationBufferWindowMemory(k=...)`, `summary limit` is
`ConversationSummaryBufferMemory(max_token_limit=...)`. -/
inductive MemoryKind where
  | buffer
  | window (k : Nat)
  | summary (max_token_limit : Nat)
  deriving DecidableEq, Repr

/-- State of the memory object owned by the service: its class, the underlying
message list `chat_memory.messages`, and (meaningful for the `summary` kind
only) the running summary string `moving_summary_buffer`. -/
structure Memory where
  kind : MemoryKind
  messages : List Message
  moving_summary_buffer : String
  deriving DecidableEq, Repr

/-- A freshly constructed memory object: empty message history and empty
running summary. -/
def Memory.fresh (kind : MemoryKind) : Memory :=
  { kind := kind, messages := [], moving_summary_buffer := "" }

/-- Modelled from the spec: `memory.clear()` is executed by the LangChain
memory classes (not by repository code).  Per the spec, `clearMemory` empties
the conversation state; all three classes reset the chat history, and the
summary class also resets its running summary. -/
def Memory.clear (m : Memory) : Memory :=
  { m with messages := [], moving_summary_buffer := "" }

/-- State of a `ConversationService` object: the stored variant name
`self.memory_type` and the owned memory object `self.memory`.  The
`conversation_chain` attribute is stateless apart from its reference to
`self.memory`, so it needs no separate state here. -/
structure ConversationService where
  memory_type : String
  memory : Memory
  deriving DecidableEq, Repr

/-- Embeds `ConversationService._create_memory` (conversation_service.py,
lines 31-61): dispatch on the `memory_type` string, building a fresh memory
object; unknown names raise `ValueError(f"Unknown memory type: ...")`,
modelled as `Except.error`. -/
def create_memory (memory_type : String) : Except String Memory :=
  if memory_type = "buffer" then
    Except.ok (Memory.fresh MemoryKind.buffer)
  else if memory_type = "window" then
    Except.ok (Memory.fresh (MemoryKind.window 5))
  else if memory_type = "summary" then
    Except.ok (Memory.fresh (MemoryKind.summary 1000))
  else
    Except.error ("Unknown memory type: " ++ memory_type)

/-- Embeds `DeepSeekLLM._call` (deepseek_service.py, lines 31-50): the
underlying client call is `client prompt`; on success its completion is
returned, and on ANY exception `e` the method catches it and returns the
string `"Error calling DeepSeek API: " ++ e` as if it were a completion.
No exception escapes this method. -/
def deepseek_call (client : String → Except String String) (prompt : String) : String :=
  match client prompt with
  | Except.ok completion => completion
  | Except.error e => "Error calling DeepSeek API: " ++ e

/-- Modelled from the spec: the textual rendering of one stored message inside
the rendered history (the LangChain buffer rendering used when the chain
substitutes the chat history into a string prompt), a role label followed by
the verbatim content. -/
def message_line (m : Message) : String :=
  (match m.role with
   | Role.human => "Human"
   | Role.ai => "AI"
   | Role.system => "System") ++ ": " ++ m.content

/-- Modelled from the spec: rendering a message list to a single history
string, one line per message, oldest first (FullHistory `render()`
concatenates all turns as alternating question/answer pairs, oldest
first). -/
def get_buffer_string : List Message → String
  | [] => ""
  | [m] => message_line m
  | m :: m2 :: rest => message_line m ++ "\n" ++ get_buffer_string (m2 :: rest)

/-- Modelled from the spec: which stored messages the memory object exposes
for prompt assembly (`load_memory_variables`).  The buffer kind exposes
everything; the window kind exposes only the last `2*k` messages, i.e. the
last `k` turns (Python slice `messages[-k*2:]`, the whole list when there are
fewer); the summary kind exposes the running summary as a leading system
message followed by the retained verbatim messages. -/
def load_memory (m : Memory) : List Message :=
  match m.kind with
  | MemoryKind.buffer => m.messages
  | MemoryKind.window k =>
      if 0 < k then m.messages.drop (m.messages.length - 2 * k) else []
  | MemoryKind.summary _ =>
      (if m.moving_summary_buffer = "" then []
       else [{ role := Role.system, content := m.moving_summary_buffer }]) ++ m.messages

/-- Embeds the `custom_prompt` template of
`ConversationService._create_conversation_chain` (conversation_service.py,
lines 67-87), with its three substitution slots `chat_history`, `context`
and `question` as arguments.  The surrounding literal text is the source
template verbatim. -/
def custom_prompt (chat_history context question : String) : String :=
  "You are a helpful assistant analyzing a resume. Use the conversation history and resume context to answer questions naturally.\n\nPrevious conversation:\n"
  ++ chat_history
  ++ "\n\nResume context:\n"
  ++ context
  ++ "\n\nCurrent question: "
  ++ question
  ++ "\n\nInstructions:\n- Reference previous conversation when relevant (use phrases like \"As I mentioned earlier\" or \"Building on what we discussed\")\n- Answer based on the resume content provided\n- If information isn\x27t in the resume, say \"This information is not available in the resume\"\n- Be conversational and remember what was discussed earlier\n- Use specific examples from the resume when possible\n- If the question refers to something from earlier in the conversation (like \"those skills\" or \"that company\"), use the chat history to understand the reference\n\nAnswer:"

/-- The prompt template exactly as the specification's section 6 prints it
(slots: rendered memory, fragment texts, question).  This definition follows
the SPEC's words, not the source; it exists to be compared against
`custom_prompt`, the template the source actually uses. -/
def spec_prompt_template (rendered_memory fragment_texts question : String) : String :=
  "Previous conversation:\n"
  ++ rendered_memory
  ++ "\n\nDocument context:\n"
  ++ fragment_texts
  ++ "\n\nCurrent question: "
  ++ question
  ++ "\n\nInstructions:\n- Reference previous conversation when relevant\n- Answer based on the document content provided\n- If information isn\x27t available, say so explicitly\n- Resolve pronouns/references using the chat history\n\nAnswer:"

/-- Modelled from the spec: the prompt the chain sends to the Generator for
one `ask` (spec section 4.2 step list: render current memory, then build the
prompt from the fixed template with the rendered memory, the fragment texts
concatenated with blank lines, and the question).  The template itself is the
source's `custom_prompt`. -/
def build_prompt (s : ConversationService) (question : String) (docs : List String) : String :=
  custom_prompt (get_buffer_string (load_memory s.memory))
    (String.intercalate "\n\n" docs) question

/-- Modelled from the spec: on successful completion of one `ask`, the chain
stores the exchange into the memory (`save_context`), appending the question
as a human message and the answer as an AI message to the permanent message
log (spec section 4.2: always appends exactly one Turn on successful
completion; section 4.1: discarded turns are not deleted from the permanent
log). -/
def save_context (m : Memory) (question answer : String) : Memory :=
  { m with messages :=
      m.messages ++ [{ role := Role.human, content := question },
                     { role := Role.ai, content := answer }] }

/-- Embeds `ConversationService.get_chat_history_formatted`
(conversation_service.py, lines 126-140): walk the stored messages two at a
time, pairing `messages[i]` with `messages[i+1]` only when `i+1 < len`, so a
trailing unpaired message produces no pair.  Each dict
`{"question": ..., "answer": ...}` is modelled as a pair (question first). -/
def get_chat_history_formatted : List Message → List (String × String)
  | [] => []
  | [_] => []
  | h :: a :: rest => (h.content, a.content) :: get_chat_history_formatted rest

/-- The value `ConversationService.ask_question` returns: the response dict
with the echoed question, the answer, the page contents of the source
documents, and the formatted chat history. -/
structure AskResponse where
  question : String
  answer : String
  source_chunks : List String
  chat_history : List (String × String)
  deriving DecidableEq, Repr

/-- Embeds `ConversationService.ask_question` (conversation_service.py,
lines 105-120) together with the chain invocation it delegates to.  The
method performs NO validation of `question`; it hands the question to the
`ConversationalRetrievalChain`, whose behavior is modelled from the spec's
section 4.2 step list: retrieve fragments (their texts arrive here as
`docs`), build the prompt from the fixed template, call the Generator, and
append the (question, answer) exchange to the memory.  With the DeepSeek
generator the call cannot fail: `DeepSeekLLM._call` converts every client
exception into a returned string, so the function is total and the post-state
service is returned alongside the response. -/
def ask_question (s : ConversationService) (question : String) (docs : List String)
    (client : String → Except String String) : AskResponse × ConversationService :=
  let prompt := build_prompt s question docs
  let answer := deepseek_call client prompt
  let memory := save_context s.memory question answer
  ({ question := question, answer := answer, source_chunks := docs,
     chat_history := get_chat_history_formatted memory.messages },
   { s with memory := memory })

/-- Embeds `ConversationService.clear_memory` (conversation_service.py,
lines 142-145): delegate to `memory.clear()`; never raises. -/
def clear_memory (s : ConversationService) : ConversationService :=
  { s with memory := s.memory.clear }

/-- The dict `ConversationService.get_memory_summary` returns. -/
structure MemorySummary where
  total_messages : Nat
  memory_type : String
  conversation_turns : Nat
  last_messages : List String
  estimated_tokens : Nat
  deriving DecidableEq, Repr

/-- Embeds `ConversationService.get_memory_summary` (conversation_service.py,
lines 147-156): reads `self.memory.chat_memory.messages` and computes the
summary dict.  `last_messages` is the Python slice `messages[-4:]` (the whole
list when shorter; the source's `if messages else []` guard is redundant with
the slice), `conversation_turns` is `len(messages) // 2`, and
`estimated_tokens` is the total character count of the message contents
integer-divided by 4. -/
def get_memory_summary (s : ConversationService) : MemorySummary :=
  let messages := s.memory.messages
  { total_messages := messages.length
    memory_type := s.memory_type
    conversation_turns := messages.length / 2
    last_messages := (messages.drop (messages.length - 4)).map Message.content
    estimated_tokens := (messages.map (fun m => m.content.length)).sum / 4 }

/-- Outcome of `ConversationService.switch_memory_type`: the post-call object
state and the error raised, if any.  A raised error does NOT roll back
attribute assignments already executed, so the post-state is meaningful in
both cases. -/
structure SwitchResult where
  service : ConversationService
  error : Option String
  deriving Repr

/-- Embeds `ConversationService.switch_memory_type` (conversation_service.py,
lines 166-172).  The source assigns `self.memory_type = new_memory_type`
FIRST and only then calls `self._create_memory(new_memory_type)`; when the
latter raises `ValueError`, the exception propagates with `self.memory_type`
already overwritten and `self.memory` untouched. -/
def switch_memory_type (s : ConversationService) (new_memory_type : String) : SwitchResult :=
  let s1 : ConversationService := { s with memory_type := new_memory_type }
  match create_memory new_memory_type with
  | Except.ok m => { service := { s1 with memory := m }, error := none }
  | Except.error e => { service := s1, error := some e }

/-- The message list recording a list of (question, answer) turns in order:
each turn contributes a human message then an AI message. -/
def turn_messages : List (String × String) → List Message
  | [] => []
  | (q, a) :: rest =>
      { role := Role.human, content := q } :: { role := Role.ai, content := a }
        :: turn_messages rest

/-- Checks that a message list is an alternation of human and AI messages,
starting with a human message and ending with an AI message. -/
def roles_alternate : List Message → Bool
  | [] => true
  | { role := Role.human, content := _ } :: { role := Role.ai, content := _ } :: rest =>
      roles_alternate rest
  | _ => false

/-- One `ask` call in a call sequence: the question, the retrieved fragment
texts, and the generation client for that turn. -/
structure AskInput where
  question : String
  docs : List String
  client : String → Except String String

/-- Runs a sequence of `ask_question` calls, returning the final service
state. -/
def run_asks : ConversationService → List AskInput → ConversationService
  | s, [] => s
  | s, i :: rest => run_asks (ask_question s i.question i.docs i.client).2 rest

/-- The (question, answer) pairs produced by a sequence of `ask_question`
calls, in call order. -/
def run_turns : ConversationService → List AskInput → List (String × String)
  | _, [] => []
  | s, i :: rest =>
      (i.question, (ask_question s i.question i.docs i.client).1.answer)
        :: run_turns (ask_question s i.question i.docs i.client).2 rest

/-! ### Helper lemmas -/

/-- The needle string occurs verbatim (as a contiguous substring) inside the
hay string. -/
def substring_of (needle hay : String) : Prop :=
  needle.data <:+: hay.data

theorem substring_of_refl (s : String) : substring_of s s :=
  List.infix_refl s.data

theorem substring_of_append_left {n h : String} (h' : String) (hn : substring_of n h) :
    substring_of n (h ++ h') := by
  unfold substring_of at hn ⊢
  rw [String.data_append]
  exact hn.trans (List.prefix_append h.data h'.data).isInfix

theorem substring_of_append_right {n h : String} (h' : String) (hn : substring_of n h) :
    substring_of n (h' ++ h) := by
  unfold substring_of at hn ⊢
  rw [String.data_append]
  exact hn.trans (List.suffix_append h'.data h.data).isInfix

theorem substring_of_trans {a b c : String} (h1 : substring_of a b) (h2 : substring_of b c) :
    substring_of a c :=
  List.IsInfix.trans h1 h2

/-- The content of a message is a substring of its rendered line. -/
theorem content_substring_of_message_line (m : Message) :
    substring_of m.content (message_line m) := by
  unfold message_line
  cases m.role <;> exact substring_of_append_right _ (substring_of_refl _)

/-- Every stored message's rendered line occurs inside the rendered history
string. -/
theorem message_line_substring_of_buffer {m : Message} :
    ∀ {msgs : List Message}, m ∈ msgs →
      substring_of (message_line m) (get_buffer_string msgs)
  | [], h => absurd h (List.not_mem_nil m)
  | [m'], h => by
      rcases List.mem_singleton.mp h with rfl
      exact substring_of_refl _
  | m' :: m2 :: rest, h => by
      rcases List.mem_cons.mp h with rfl | h2
      · show substring_of (message_line m) (message_line m ++ "\n" ++ _)
        exact substring_of_append_left _
          (substring_of_append_left _ (substring_of_refl _))
      · show substring_of (message_line m) (message_line m' ++ "\n" ++ _)
        exact substring_of_append_right _
          (message_line_substring_of_buffer h2)

@[simp]
theorem turn_messages_append (ps qs : List (String × String)) :
    turn_messages (ps ++ qs) = turn_messages ps ++ turn_messages qs := by
  induction ps with
  | nil => rfl
  | cons p rest ih => cases p; simp [turn_messages, ih]

@[simp]
theorem turn_messages_length (ps : List (String × String)) :
    (turn_messages ps).length = 2 * ps.length := by
  induction ps with
  | nil => rfl
  | cons p rest ih => cases p; simp [turn_messages, ih]; omega

theorem turn_messages_drop (ps : List (String × String)) (n : Nat) :
    turn_messages (ps.drop n) = (turn_messages ps).drop (2 * n) := by
  induction ps generalizing n with
  | nil => simp [turn_messages]
  | cons p rest ih =>
      cases n with
      | zero => rfl
      | succ k =>
          cases p
          have : 2 * (k + 1) = 2 * k + 1 + 1 := by omega
          simp [turn_messages, this, List.drop_succ_cons, ih]

@[simp]
theorem formatted_turn_messages (ps : List (String × String)) :
    get_chat_history_formatted (turn_messages ps) = ps := by
  induction ps with
  | nil => rfl
  | cons p rest ih => cases p; simp [turn_messages, get_chat_history_formatted, ih]

@[simp]
theorem roles_alternate_turn_messages (ps : List (String × String)) :
    roles_alternate (turn_messages ps) = true := by
  induction ps with
  | nil => rfl
  | cons p rest ih => cases p; simpa [turn_messages, roles_alternate] using ih

/-- One `ask_question` call appends exactly the new exchange to the stored
message list. -/
theorem ask_question_messages (s : ConversationService) (question : String)
    (docs : List String) (client : String → Except String String) :
    (ask_question s question docs client).2.memory.messages
      = s.memory.messages
        ++ turn_messages [(question, (ask_question s question docs client).1.answer)] :=
  rfl

theorem ask_question_preserves_kind (s : ConversationService) (question : String)
    (docs : List String) (client : String → Except String String) :
    (ask_question s question docs client).2.memory.kind = s.memory.kind :=
  rfl

/-- A sequence of `ask_question` calls appends exactly the produced turns, in
order, to the stored message list. -/
theorem run_asks_messages (inputs : List AskInput) :
    ∀ s : ConversationService,
      (run_asks s inputs).memory.messages
        = s.memory.messages ++ turn_messages (run_turns s inputs) := by
  induction inputs with
  | nil => intro s; simp [run_asks, run_turns, turn_messages]
  | cons i rest ih =>
      intro s
      show (run_asks (ask_question s i.question i.docs i.client).2 rest).memory.messages = _
      rw [ih, ask_question_messages]
      simp [run_turns, turn_messages]

theorem run_turns_map_question (inputs : List AskInput) :
    ∀ s : ConversationService,
      (run_turns s inputs).map Prod.fst = inputs.map AskInput.question := by
  induction inputs with
  | nil => intro s; rfl
  | cons i rest ih => intro s; simp [run_turns, ih]

theorem run_turns_length (inputs : List AskInput) :
    ∀ s : ConversationService, (run_turns s inputs).length = inputs.length := by
  induction inputs with
  | nil => intro s; rfl
  | cons i rest ih => intro s; simp [run_turns, ih]

theorem formatted_length : ∀ msgs : List Message,
    (get_chat_history_formatted msgs).length = msgs.length / 2
  | [] => rfl
  | [_] => by simp [get_chat_history_formatted]
  | _ :: _ :: rest => by
      have ih := formatted_length rest
      simp only [get_chat_history_formatted, List.length_cons]
      omega

theorem formatted_get : ∀ (msgs : List Message) (i : Nat) (x y : Message),
    msgs[2 * i]? = some x → msgs[2 * i + 1]? = some y →
    (get_chat_history_formatted msgs)[i]? = some (x.content, y.content)
  | [], _, _, _, hx, _ => by simp at hx
  | [_], i, _, _, hx, hy => by
      cases i with
      | zero => simp at hy
      | succ k =>
          rw [show 2 * (k + 1) = 2 * k + 1 + 1 by omega] at hx
          simp at hx
  | h :: a :: rest, i, x, y, hx, hy => by
      cases i with
      | zero =>
          simp at hx hy
          subst hx
          subst hy
          simp [get_chat_history_formatted]
      | succ k =>
          have hx' : rest[2 * k]? = some x := by
            rw [show 2 * (k + 1) = 2 * k + 1 + 1 by omega] at hx
            simpa using hx
          have hy' : rest[2 * k + 1]? = some y := by
            rw [show 2 * (k + 1) + 1 = 2 * k + 1 + 1 + 1 by omega] at hy
            simpa using hy
          simpa [get_chat_history_formatted] using formatted_get rest k x y hx' hy'

theorem formatted_odd : ∀ msgs : List Message, msgs.length % 2 = 1 →
    get_chat_history_formatted msgs = get_chat_history_formatted msgs.dropLast
  | [], h => by simp at h
  | [_], _ => rfl
  | [_, _], h => by simp at h
  | h :: a :: r :: rest', hodd => by
      have hrest : (r :: rest').length % 2 = 1 := by
        simp only [List.length_cons] at hodd ⊢
        omega
      rw [List.dropLast_cons₂, List.dropLast_cons₂]
      show (h.content, a.content) :: get_chat_history_formatted (r :: rest')
        = (h.content, a.content) :: get_chat_history_formatted ((r :: rest').dropLast)
      rw [formatted_odd (r :: rest') hrest]

theorem conversation_turns_of_nil {s : ConversationService}
    (h : s.memory.messages = []) :
    (get_memory_summary s).conversation_turns = 0 := by
  show s.memory.messages.length / 2 = 0
  rw [h]
  simp

/-- Sample data used by the concrete witness and counterexample theorems. -/
def sample_turns : List (String × String) :=
  [("q1", "a1"), ("q2", "a2")]

/-- A service in the default configuration holding two recorded turns. -/
def sample_service : ConversationService :=
  { memory_type := "buffer"
    memory :=
      { kind := MemoryKind.buffer
        messages := turn_messages sample_turns
        moving_summary_buffer := "" } }

/-- A freshly initialized service with the default buffer memory and no
recorded turns. -/
def fresh_service : ConversationService :=
  { memory_type := "buffer", memory := Memory.fresh MemoryKind.buffer }

/-- A generation client whose underlying API call always succeeds with a
fixed completion. -/
def ok_client : String → Except String String :=
  fun _ => Except.ok "the answer"

/-- A generation client whose underlying API call always raises an exception
with message "boom". -/
def failing_client : String → Except String String :=
  fun _ => Except.error "boom"

/-! ### Claim C10 -/

/-- C10: the formatted chat history contains exactly `len(messages) / 2`
question/answer pairs; the `i`-th pair is `(messages[2i], messages[2i+1])`
(so pairs come in message order); and when the stored message list has odd
length the final unpaired message is silently omitted (the formatted history
of the list equals that of the list with its last element dropped). -/
theorem C10_formatted_history (msgs : List Message) :
    (get_chat_history_formatted msgs).length = msgs.length / 2 ∧
    (∀ i : Nat, ∀ x y : Message, msgs[2 * i]? = some x → msgs[2 * i + 1]? = some y →
      (get_chat_history_formatted msgs)[i]? = some (x.content, y.content)) ∧
    (msgs.length % 2 = 1 →
      get_chat_history_formatted msgs = get_chat_history_formatted msgs.dropLast) :=
  ⟨formatted_length msgs,
   fun i x y hx hy => formatted_get msgs i x y hx hy,
   fun h => formatted_odd msgs h⟩

/-- Witness for C10 on a concrete odd-length message list. -/
theorem C10_formatted_history_witness :
    (get_chat_history_formatted
        [{ role := Role.human, content := "q1" }, { role := Role.ai, content := "a1" },
         { role := Role.human, content := "dangling" }]).length = 1 ∧
    (get_chat_history_formatted
        [{ role := Role.human, content := "q1" }, { role := Role.ai, content := "a1" },
         { role := Role.human, content := "dangling" }])[0]? = some ("q1", "a1") ∧
    get_chat_history_formatted
        [{ role := Role.human, content := "q1" }, { role := Role.ai, content := "a1" },
         { role := Role.human, content := "dangling" }]
      = get_chat_history_formatted
          [{ role := Role.human, content := "q1" }, { role := Role.ai, content := "a1" }] := by
  have h := C10_formatted_history
    [{ role := Role.human, content := "q1" }, { role := Role.ai, content := "a1" },
     { role := Role.human, content := "dangling" }]
  refine ⟨by simpa using h.1, h.2.1 0 _ _ rfl rfl, h.2.2 (by simp)⟩

/-! ### Claim C9 -/

theorem turn_messages_last_four (pairs : List (String × String)) :
    (turn_messages pairs).drop ((turn_messages pairs).length - 4)
      = turn_messages (pairs.drop (pairs.length - 2)) := by
  rw [turn_messages_drop, turn_messages_length]
  congr 1
  omega

/-- C9: `get_memory_summary` reads the state without modifying it (it is a
pure function of the service state in this embedding, matching the source,
which only reads `self.memory.chat_memory.messages`); its `estimated_tokens`
is the total character count of all stored messages integer-divided by 4, and
for a state holding whole turns its `last_messages` shows exactly the last
two turns (the last four messages), with `conversation_turns` and
`total_messages` counting those turns. -/
theorem C9_summary_fields (s : ConversationService) (pairs : List (String × String))
    (hm : s.memory.messages = turn_messages pairs) :
    (get_memory_summary s).estimated_tokens
      = ((s.memory.messages.map (fun m => m.content.length)).sum) / 4 ∧
    (get_memory_summary s).last_messages
      = (turn_messages (pairs.drop (pairs.length - 2))).map Message.content ∧
    (get_memory_summary s).conversation_turns = pairs.length ∧
    (get_memory_summary s).total_messages = 2 * pairs.length := by
  refine ⟨rfl, ?_, ?_, ?_⟩
  · show (s.memory.messages.drop (s.memory.messages.length - 4)).map Message.content = _
    rw [hm, turn_messages_last_four]
  · show s.memory.messages.length / 2 = pairs.length
    rw [hm, turn_messages_length]
    omega
  · show s.memory.messages.length = 2 * pairs.length
    rw [hm, turn_messages_length]

/-- Witness for C9 on a concrete three-turn state. -/
theorem C9_summary_fields_witness :
    (get_memory_summary
        { memory_type := "buffer"
          memory :=
            { kind := MemoryKind.buffer
              messages := turn_messages [("q1", "a1"), ("q2", "a2"), ("q3", "a3")]
              moving_summary_buffer := "" } }).estimated_tokens = 3 ∧
    (get_memory_summary
        { memory_type := "buffer"
          memory :=
            { kind := MemoryKind.buffer
              messages := turn_messages [("q1", "a1"), ("q2", "a2"), ("q3", "a3")]
              moving_summary_buffer := "" } }).last_messages = ["q2", "a2", "q3", "a3"] ∧
    (get_memory_summary
        { memory_type := "buffer"
          memory :=
            { kind := MemoryKind.buffer
              messages := turn_messages [("q1", "a1"), ("q2", "a2"), ("q3", "a3")]
              moving_summary_buffer := "" } }).conversation_turns = 3 := by
  have h := C9_summary_fields
    { memory_type := "buffer"
      memory :=
        { kind := MemoryKind.buffer
          messages := turn_messages [("q1", "a1"), ("q2", "a2"), ("q3", "a3")]
          moving_summary_buffer := "" } }
    [("q1", "a1"), ("q2", "a2"), ("q3", "a3")] rfl
  refine ⟨?_, ?_, h.2.2.1⟩
  · rw [h.1]
    decide
  · rw [h.2.1]
    decide

/-! ### Claim C8 -/

/-- C8: `clear_memory` is idempotent (clearing twice equals clearing once),
is a total operation that succeeds on every state including an already-empty
memory, and a summary taken right after it reports zero turns and zero
messages regardless of the prior state. -/
theorem C8_clear_idempotent (s : ConversationService) :
    clear_memory (clear_memory s) = clear_memory s ∧
    (get_memory_summary (clear_memory s)).conversation_turns = 0 ∧
    (get_memory_summary (clear_memory s)).total_messages = 0 ∧
    (get_memory_summary (clear_memory s)).last_messages = [] :=
  ⟨rfl, conversation_turns_of_nil rfl, rfl, rfl⟩

/-! ### Claim C5 -/

/-- C5: switching the memory policy to any of the known variant names
installs a fresh, empty memory object and raises no error; a summary issued
immediately after the switch reports zero turns, whatever the prior state
held. -/
theorem C5_switch_fresh (s : ConversationService) (t : String)
    (h : t = "buffer" ∨ t = "window" ∨ t = "summary") :
    (switch_memory_type s t).error = none ∧
    (switch_memory_type s t).service.memory.messages = [] ∧
    (switch_memory_type s t).service.memory.moving_summary_buffer = "" ∧
    (get_memory_summary (switch_memory_type s t).service).conversation_turns = 0 := by
  rcases h with rfl | rfl | rfl <;>
    exact ⟨rfl, rfl, rfl, conversation_turns_of_nil rfl⟩

/-- Witness for C5: the sample service holds two turns before the switch,
and zero immediately after switching to "window". -/
theorem C5_switch_fresh_witness :
    (get_memory_summary sample_service).conversation_turns = 2 ∧
    (switch_memory_type sample_service "window").error = none ∧
    (get_memory_summary (switch_memory_type sample_service "window").service).conversation_turns
      = 0 := by
  have h := C5_switch_fresh sample_service "window" (Or.inr (Or.inl rfl))
  exact ⟨by decide, h.1, h.2.2.2⟩

/-! ### Claim C3 -/

/-- C3 counterexample: switching the sample service (memory_type "buffer",
two recorded turns) to the unknown variant "nonexistent" does raise an error
naming the identifier and does leave the turn history untouched, but it does
NOT leave the stored variant name unchanged: `self.memory_type` is
overwritten with "nonexistent" before the validation in `_create_memory`
raises, refuting the claim that the failed call modifies neither the stored
variant name nor the turn history. -/
theorem C3_counterexample :
    (switch_memory_type sample_service "nonexistent").error
      = some "Unknown memory type: nonexistent" ∧
    (switch_memory_type sample_service "nonexistent").service.memory
      = sample_service.memory ∧
    (switch_memory_type sample_service "nonexistent").service.memory_type
      = "nonexistent" ∧
    sample_service.memory_type ≠ "nonexistent" := by
  refine ⟨by decide, rfl, rfl, by decide⟩

/-- C3 amended: for every unknown variant name, `switch_memory_type` raises a
`ValueError` naming the unrecognized identifier and leaves the memory object
(and hence the turn history) unchanged, but the stored variant name
`self.memory_type` is overwritten with the unknown name before the failure,
because the source assigns it before validating. -/
theorem C3_amended (s : ConversationService) (t : String)
    (hb : t ≠ "buffer") (hw : t ≠ "window") (hs : t ≠ "summary") :
    (switch_memory_type s t).error = some ("Unknown memory type: " ++ t) ∧
    (switch_memory_type s t).service.memory = s.memory ∧
    (switch_memory_type s t).service.memory_type = t := by
  have hcm : create_memory t = Except.error ("Unknown memory type: " ++ t) := by
    unfold create_memory
    rw [if_neg hb, if_neg hw, if_neg hs]
  unfold switch_memory_type
  rw [hcm]
  exact ⟨rfl, rfl, rfl⟩

/-- Witness for C3 amended at the concrete unknown name "nonexistent". -/
theorem C3_amended_witness :
    (switch_memory_type sample_service "nonexistent").error
      = some ("Unknown memory type: " ++ "nonexistent") ∧
    (switch_memory_type sample_service "nonexistent").service.memory
      = sample_service.memory ∧
    (switch_memory_type sample_service "nonexistent").service.memory_type
      = "nonexistent" :=
  C3_amended sample_service "nonexistent" (by decide) (by decide) (by decide)

/-! ### Claim C2 -/

/-- C2 counterexample: `ask_question` performs no validation of the question,
so asking "" (and likewise "   ") on a fresh service does not fail with any
`EmptyQuestion` error: the call completes normally (the function is total),
returns the generator's completion as the answer, and appends one turn, so
the turn count rises from 0 to 1. -/
theorem C2_counterexample :
    (ask_question fresh_service "" ["chunk"] ok_client).1.answer = "the answer" ∧
    (get_memory_summary (ask_question fresh_service "" ["chunk"] ok_client).2).conversation_turns
      = 1 ∧
    (ask_question fresh_service "   " ["chunk"] ok_client).1.answer = "the answer" ∧
    (get_memory_summary (ask_question fresh_service "   " ["chunk"] ok_client).2).conversation_turns
      = 1 ∧
    (get_memory_summary fresh_service).conversation_turns = 0 := by
  refine ⟨rfl, by decide, rfl, by decide, by decide⟩

/-- C2 amended: for every question that is empty after trimming whitespace
(every character is whitespace, which covers "" and "   "), `ask_question`
does not reject it: the call is processed exactly like any other question,
the answer is whatever the generation step returns for the assembled prompt,
and exactly one turn (two messages) is appended to the memory. -/
theorem C2_amended (s : ConversationService) (q : String) (docs : List String)
    (client : String → Except String String)
    (_hq : q.data.all Char.isWhitespace = true) :
    (ask_question s q docs client).1.answer
      = deepseek_call client (build_prompt s q docs) ∧
    (ask_question s q docs client).2.memory.messages
      = s.memory.messages
        ++ turn_messages [(q, deepseek_call client (build_prompt s q docs))] ∧
    (get_memory_summary (ask_question s q docs client).2).total_messages
      = (get_memory_summary s).total_messages + 2 ∧
    (get_memory_summary (ask_question s q docs client).2).conversation_turns
      = (get_memory_summary s).conversation_turns + 1 := by
  refine ⟨rfl, rfl, ?_, ?_⟩
  · show (s.memory.messages ++ _).length = s.memory.messages.length + 2
    simp [save_context, turn_messages]
  · show (s.memory.messages ++ _).length / 2 = s.memory.messages.length / 2 + 1
    simp only [List.length_append, List.length_cons, List.length_nil]
    omega

/-- Witness for C2 amended at the whitespace question "   ". -/
theorem C2_amended_witness :
    ("   ".data.all Char.isWhitespace = true) ∧
    (ask_question fresh_service "   " ["chunk"] ok_client).1.answer
      = deepseek_call ok_client (build_prompt fresh_service "   " ["chunk"]) ∧
    (get_memory_summary (ask_question fresh_service "   " ["chunk"] ok_client).2).conversation_turns
      = (get_memory_summary fresh_service).conversation_turns + 1 :=
  ⟨by decide,
   (C2_amended fresh_service "   " ["chunk"] ok_client (by decide)).1,
   (C2_amended fresh_service "   " ["chunk"] ok_client (by decide)).2.2.2⟩

/-! ### Claim C1 -/

/-- C1 counterexample: asking on the sample service (two recorded turns) with
a generation client whose API call raises "boom" does not surface any
`GenerationFailed` error: `DeepSeekLLM._call` catches the exception and
returns the string "Error calling DeepSeek API: boom" as the answer, the call
completes normally, and a turn IS appended — the turn count moves from 2 to
3, refuting the claim that the conversation state is unchanged after a
generator failure. -/
theorem C1_counterexample :
    (ask_question sample_service "q3" ["chunk"] failing_client).1.answer
      = "Error calling DeepSeek API: boom" ∧
    (get_memory_summary sample_service).conversation_turns = 2 ∧
    (get_memory_summary (ask_question sample_service "q3" ["chunk"] failing_client).2).conversation_turns
      = 3 ∧
    ¬ (get_memory_summary (ask_question sample_service "q3" ["chunk"] failing_client).2).conversation_turns
        = (get_memory_summary sample_service).conversation_turns := by
  refine ⟨rfl, by decide, by decide, by decide⟩

/-- C1 amended: when the generation client fails during `ask`, no error
reaches the caller: `DeepSeekLLM._call` swallows the exception and returns
"Error calling DeepSeek API: " followed by the exception message as if it
were the completion, the call completes normally with that string as the
answer, and one turn recording it IS appended, so the turn count increases by
one instead of staying unchanged. -/
theorem C1_amended (s : ConversationService) (q : String) (docs : List String)
    (client : String → Except String String) (e : String)
    (hfail : client (build_prompt s q docs) = Except.error e) :
    (ask_question s q docs client).1.answer = "Error calling DeepSeek API: " ++ e ∧
    (ask_question s q docs client).2.memory.messages
      = s.memory.messages ++ turn_messages [(q, "Error calling DeepSeek API: " ++ e)] ∧
    (get_memory_summary (ask_question s q docs client).2).conversation_turns
      = (get_memory_summary s).conversation_turns + 1 := by
  have hcall : deepseek_call client (build_prompt s q docs)
      = "Error calling DeepSeek API: " ++ e := by
    unfold deepseek_call
    rw [hfail]
  refine ⟨?_, ?_, ?_⟩
  · show deepseek_call client (build_prompt s q docs) = _
    exact hcall
  · show s.memory.messages
        ++ turn_messages [(q, deepseek_call client (build_prompt s q docs))] = _
    rw [hcall]
  · show (s.memory.messages ++ _).length / 2 = s.memory.messages.length / 2 + 1
    simp only [List.length_append, List.length_cons, List.length_nil]
    omega

/-- Witness for C1 amended at the concrete failing client. -/
theorem C1_amended_witness :
    failing_client (build_prompt sample_service "q3" ["chunk"]) = Except.error "boom" ∧
    (ask_question sample_service "q3" ["chunk"] failing_client).1.answer
      = "Error calling DeepSeek API: " ++ "boom" ∧
    (get_memory_summary (ask_question sample_service "q3" ["chunk"] failing_client).2).conversation_turns
      = (get_memory_summary sample_service).conversation_turns + 1 :=
  ⟨rfl,
   (C1_amended sample_service "q3" ["chunk"] failing_client "boom" rfl).1,
   (C1_amended sample_service "q3" ["chunk"] failing_client "boom" rfl).2.2⟩

/-! ### Claim C6 -/

/-- C6: starting from an empty history, a sequence of N successful `ask`
calls (no clear, no policy switch) records exactly N turns contiguously: the
stored messages are precisely the N (question, answer) exchanges in call
order (so the k-th recorded turn is the k-th call: ordinals are exactly
1..N with no gaps), the history strictly alternates question and answer
messages, the formatted history lists the N questions in call order, and the
reported turn count equals N. -/
theorem C6_contiguous_turns (s : ConversationService) (inputs : List AskInput)
    (h : s.memory.messages = []) :
    (run_asks s inputs).memory.messages = turn_messages (run_turns s inputs) ∧
    (run_turns s inputs).length = inputs.length ∧
    (get_chat_history_formatted (run_asks s inputs).memory.messages).map Prod.fst
      = inputs.map AskInput.question ∧
    (get_chat_history_formatted (run_asks s inputs).memory.messages).length
      = inputs.length ∧
    (get_memory_summary (run_asks s inputs)).conversation_turns = inputs.length ∧
    roles_alternate (run_asks s inputs).memory.messages = true := by
  have hm : (run_asks s inputs).memory.messages = turn_messages (run_turns s inputs) := by
    rw [run_asks_messages inputs s, h]
    rfl
  refine ⟨hm, run_turns_length inputs s, ?_, ?_, ?_, ?_⟩
  · rw [hm, formatted_turn_messages, run_turns_map_question]
  · rw [hm, formatted_turn_messages, run_turns_length]
  · show (run_asks s inputs).memory.messages.length / 2 = inputs.length
    rw [hm, turn_messages_length, run_turns_length]
    omega
  · rw [hm, roles_alternate_turn_messages]

/-- Witness for C6 on a fresh service and two concrete calls. -/
theorem C6_contiguous_turns_witness :
    fresh_service.memory.messages = [] ∧
    (get_chat_history_formatted
        (run_asks fresh_service
          [{ question := "q1", docs := ["d1"], client := ok_client },
           { question := "q2", docs := ["d2"], client := ok_client }]).memory.messages).map
        Prod.fst
      = ["q1", "q2"] ∧
    (get_memory_summary
        (run_asks fresh_service
          [{ question := "q1", docs := ["d1"], client := ok_client },
           { question := "q2", docs := ["d2"], client := ok_client }])).conversation_turns
      = 2 := by
  have h := C6_contiguous_turns fresh_service
    [{ question := "q1", docs := ["d1"], client := ok_client },
     { question := "q2", docs := ["d2"], client := ok_client }] rfl
  exact ⟨rfl, h.2.2.1, h.2.2.2.2.1⟩

/-! ### Claim C7 -/

/-- C7: for a FixedWindow(5) memory holding M > 5 recorded turns, the
rendered window is exactly the last 5 turns, oldest of the window first, and
none of the older turns; the older turns are only excluded from rendering,
not deleted: the permanent message log still holds all M turns, the excluded
prefix followed by the rendered window. -/
theorem C7_window_render (s : ConversationService) (turns : List (String × String))
    (hk : s.memory.kind = MemoryKind.window 5)
    (hm : s.memory.messages = turn_messages turns)
    (hlen : 5 < turns.length) :
    load_memory s.memory = turn_messages (turns.drop (turns.length - 5)) ∧
    s.memory.messages
      = turn_messages (turns.take (turns.length - 5))
        ++ turn_messages (turns.drop (turns.length - 5)) := by
  constructor
  · show load_memory s.memory = _
    unfold load_memory
    rw [hk]
    simp only [Nat.lt_irrefl, reduceIte, hm, turn_messages_length,
      show (0 : Nat) < 5 by omega, if_true]
    rw [turn_messages_drop]
    congr 1
    omega
  · rw [hm, ← turn_messages_append, List.take_append_drop]

/-- Witness for C7 on a concrete six-turn window(5) state: the rendered
window is turns 2..6 and the permanent log is turn 1 followed by them. -/
theorem C7_window_render_witness :
    load_memory
        { kind := MemoryKind.window 5
          messages := turn_messages
            [("q1", "a1"), ("q2", "a2"), ("q3", "a3"), ("q4", "a4"), ("q5", "a5"), ("q6", "a6")]
          moving_summary_buffer := "" }
      = turn_messages [("q2", "a2"), ("q3", "a3"), ("q4", "a4"), ("q5", "a5"), ("q6", "a6")] ∧
    turn_messages
        [("q1", "a1"), ("q2", "a2"), ("q3", "a3"), ("q4", "a4"), ("q5", "a5"), ("q6", "a6")]
      = turn_messages [("q1", "a1")]
        ++ turn_messages
            [("q2", "a2"), ("q3", "a3"), ("q4", "a4"), ("q5", "a5"), ("q6", "a6")] := by
  have h := C7_window_render
    { memory_type := "window"
      memory :=
        { kind := MemoryKind.window 5
          messages := turn_messages
            [("q1", "a1"), ("q2", "a2"), ("q3", "a3"), ("q4", "a4"), ("q5", "a5"), ("q6", "a6")]
          moving_summary_buffer := "" } }
    [("q1", "a1"), ("q2", "a2"), ("q3", "a3"), ("q4", "a4"), ("q5", "a5"), ("q6", "a6")]
    rfl rfl (by decide)
  exact ⟨h.1, h.2⟩

/-! ### Claim C4 -/

/-- The rendered chat history occurs verbatim inside the assembled prompt. -/
theorem chat_history_substring_of_prompt (hist ctx q : String) :
    substring_of hist (custom_prompt hist ctx q) := by
  unfold custom_prompt
  exact substring_of_append_left _ (substring_of_append_left _ (substring_of_append_left _
    (substring_of_append_left _ (substring_of_append_left _
      (substring_of_append_right _ (substring_of_refl hist))))))

/-- The fragment-context block occurs verbatim inside the assembled prompt. -/
theorem context_substring_of_prompt (hist ctx q : String) :
    substring_of ctx (custom_prompt hist ctx q) := by
  unfold custom_prompt
  exact substring_of_append_left _ (substring_of_append_left _ (substring_of_append_left _
    (substring_of_append_right _ (substring_of_refl ctx))))

/-- The current question occurs verbatim inside the assembled prompt. -/
theorem question_substring_of_prompt (hist ctx q : String) :
    substring_of q (custom_prompt hist ctx q) := by
  unfold custom_prompt
  exact substring_of_append_left _ (substring_of_append_right _ (substring_of_refl q))

/-- The code template's own section header "Resume context:" occurs verbatim
inside every prompt it assembles. -/
theorem resume_header_substring_of_prompt (hist ctx q : String) :
    substring_of "Resume context:" (custom_prompt hist ctx q) := by
  have hblock : substring_of "\n\nResume context:\n" (custom_prompt hist ctx q) := by
    unfold custom_prompt
    exact substring_of_append_left _ (substring_of_append_left _ (substring_of_append_left _
      (substring_of_append_left _ (substring_of_append_right _ (substring_of_refl _)))))
  refine substring_of_trans ?_ hblock
  unfold substring_of
  decide

/-- C4 counterexample: on the state reached after one successful ask (turn
("q1", "a1")), the prompt the code assembles for the second ask is NOT the
spec's section 6 template applied to the same rendered memory, fragment texts
and question; the two templates differ already on empty inputs (the code's
header is "Resume context:" where the spec's template demands
"Document context:", among other wording differences), and the code's header
is what actually occurs in the assembled prompt. -/
theorem C4_counterexample :
    build_prompt (ask_question fresh_service "q1" ["frag1"] (fun _ => Except.ok "a1")).2
        "q2" ["frag2"]
      ≠ spec_prompt_template
          (get_buffer_string
            (load_memory
              (ask_question fresh_service "q1" ["frag1"] (fun _ => Except.ok "a1")).2.memory))
          (String.intercalate "\n\n" ["frag2"]) "q2" ∧
    custom_prompt "" "" "" ≠ spec_prompt_template "" "" "" ∧
    substring_of "Resume context:"
        (build_prompt (ask_question fresh_service "q1" ["frag1"] (fun _ => Except.ok "a1")).2
          "q2" ["frag2"]) := by
  exact ⟨by decide, by decide,
    resume_header_substring_of_prompt _ _ _⟩

/-- C4 amended: the prompt sent to the Generator is assembled from the
source's fixed template (`custom_prompt`, whose field names are
`chat_history`, `context` and `question`, with section headers
"Previous conversation:", "Resume context:" and "Current question:") with the
rendered memory, then the fragment texts, then the current question, in that
order; whenever the loaded memory holds a recorded turn — in particular the
first turn during the second ask — that turn's question and answer appear
verbatim inside the prompt, as do the rendered history, the fragment block
and the current question. -/
theorem C4_amended (s : ConversationService) (q2 : String) (docs : List String)
    (q1 a1 : String)
    (hq : ({ role := Role.human, content := q1 } : Message) ∈ load_memory s.memory)
    (ha : ({ role := Role.ai, content := a1 } : Message) ∈ load_memory s.memory) :
    build_prompt s q2 docs
      = custom_prompt (get_buffer_string (load_memory s.memory))
          (String.intercalate "\n\n" docs) q2 ∧
    substring_of q1 (build_prompt s q2 docs) ∧
    substring_of a1 (build_prompt s q2 docs) ∧
    substring_of (String.intercalate "\n\n" docs) (build_prompt s q2 docs) ∧
    substring_of q2 (build_prompt s q2 docs) := by
  have hhist : substring_of (get_buffer_string (load_memory s.memory))
      (build_prompt s q2 docs) :=
    chat_history_substring_of_prompt _ _ _
  refine ⟨rfl, ?_, ?_, context_substring_of_prompt _ _ _, question_substring_of_prompt _ _ _⟩
  · exact substring_of_trans
      (substring_of_trans
        (content_substring_of_message_line { role := Role.human, content := q1 })
        (message_line_substring_of_buffer hq)) hhist
  · exact substring_of_trans
      (substring_of_trans
        (content_substring_of_message_line { role := Role.ai, content := a1 })
        (message_line_substring_of_buffer ha)) hhist

/-- Witness for C4 amended: after one concrete ask recording ("q1", "a1"),
the second ask's prompt contains "q1" and "a1" verbatim. -/
theorem C4_amended_witness :
    substring_of "q1"
        (build_prompt (ask_question fresh_service "q1" ["frag1"] (fun _ => Except.ok "a1")).2
          "q2" ["frag2"]) ∧
    substring_of "a1"
        (build_prompt (ask_question fresh_service "q1" ["frag1"] (fun _ => Except.ok "a1")).2
          "q2" ["frag2"]) := by
  have h := C4_amended
    (ask_question fresh_service "q1" ["frag1"] (fun _ => Except.ok "a1")).2
    "q2" ["frag2"] "q1" "a1" (by decide) (by decide)
  exact ⟨h.2.1, h.2.2.1⟩

end ResumeGPT
